import Mathlib

/-!
Shallow embedding of the thermostatic-control environment notebooks.

Three variants of the Python class ThermostatEnvironment are embedded:
  * V1: thermostat-environment.ipynb (scalar observation, horizon 5)
  * V2: thermostatic-control-02-max-startups.ipynb (hard cutoff on startups)
  * V3: thermostatic-control-03-max-startups-explicit-state.ipynb
        (budget exposed in the observation, soft penalty)

Conventions of the embedding:
  * Temperatures and rewards are real numbers; Python float arithmetic is
    embedded as exact real arithmetic.
  * Actions are integers (Python ints); the assert at the top of execute is
    embedded by returning none and the unchanged state, mirroring that the
    Python AssertionError fires before any mutation.
  * The unseeded draw np.random.random() of reset is embedded as an explicit
    real argument r.
  * execute returns (post-state, some (observation, terminal, reward)) on a
    valid action, (pre-state, none) on an invalid one.
-/

noncomputable section

/-- The standalone response function of thermostatic-response-function.ipynb:
respond(action, current_temp, tau) = action + (current_temp - action) * exp(-1/tau). -/
def respond (action current_temp tau : ℝ) : ℝ :=
  action + (current_temp - action) * Real.exp (-1 / tau)

/-- The temperature sequence obtained by holding one action fixed and applying
the response function repeatedly, starting from T0. -/
def tempSeq (a T0 tau : ℝ) : ℕ → ℝ
  | 0 => T0
  | n + 1 => respond a (tempSeq a T0 tau n) tau

/-- The sliding-window filter of the startup tracker: the entries e of the
startup history with now - e <= w (Python: `[e for e in self.off_to_on if
self.timestep - e <= self.window_toggle_ons]`).  History entries never exceed
the current timestep, so natural subtraction agrees with Python integers. -/
def windowEvents (now w : ℕ) (hist : List ℕ) : List ℕ :=
  hist.filter (fun e => decide (now - e ≤ w))

namespace V1

/-- State of the V1 ThermostatEnvironment (thermostat-environment.ipynb). -/
structure Env where
  tau : ℝ
  current_temp : ℝ
  timestep : ℕ

/-- V1 __init__: tau = 3.0, current_temp = 0.0, timestep = 0. -/
def init : Env := { tau := 3, current_temp := 0, timestep := 0 }

/-- V1 max_episode_timesteps(): the literal 5. -/
def max_episode_timesteps : ℕ := 5

/-- V1 reset: draws a random state r, sets current_temp to 0.0 and timestep to
0, and returns the draw r as the observation. -/
def reset (e : Env) (r : ℝ) : Env × ℝ :=
  ({ e with current_temp := 0, timestep := 0 }, r)

/-- V1 response(action). -/
def response (e : Env) (a : ℤ) : ℝ :=
  (a : ℝ) + (e.current_temp - (a : ℝ)) * Real.exp (-1 / e.tau)

/-- V1 reward_compute: 0 inside the dead band, -delta + 0.1 outside. -/
def reward_compute (T : ℝ) : ℝ :=
  if |T - 0.5| < 0.1 then 0 else -|T - 0.5| + 0.1

/-- V1 execute(actions): assert action valid, increment timestep, update the
temperature, compute the reward, set terminal iff timestep > 5. -/
def execute (e : Env) (a : ℤ) : Env × Option (ℝ × Bool × ℝ) :=
  if a = 0 ∨ a = 1 then
    let t' := e.timestep + 1
    let temp' := response e a
    let e' := { e with timestep := t', current_temp := temp' }
    (e', some (temp', decide (t' > max_episode_timesteps), reward_compute temp'))
  else (e, none)

end V1

namespace V2

/-- State of the V2 ThermostatEnvironment
(thermostatic-control-02-max-startups.ipynb). -/
structure Env where
  tau : ℝ
  current_temp : ℝ
  timestep : ℕ
  max_timestep : ℕ
  exceed_toggle_on_reward : ℝ
  last_heater_state : ℤ
  max_toggle_ons : ℕ
  window_toggle_ons : ℕ
  off_to_on : List ℕ

/-- V2 __init__: tau 3.0, temp 0.0, horizon 200, penalty -50.0, budget 3,
window 20, empty history. -/
def init : Env :=
  { tau := 3, current_temp := 0, timestep := 0, max_timestep := 200,
    exceed_toggle_on_reward := -50, last_heater_state := 0,
    max_toggle_ons := 3, window_toggle_ons := 20, off_to_on := [] }

/-- V2 reset: zeroes timestep and heater state, clears the history, draws a
fresh temperature r and returns it. -/
def reset (e : Env) (r : ℝ) : Env × ℝ :=
  ({ e with timestep := 0, last_heater_state := 0, off_to_on := [],
            current_temp := r }, r)

/-- V2 response(action). -/
def response (e : Env) (a : ℤ) : ℝ :=
  (a : ℝ) + (e.current_temp - (a : ℝ)) * Real.exp (-1 / e.tau)

/-- V2 reward_compute: 0 inside the dead band, -delta + 0.1 outside. -/
def reward_compute (T : ℝ) : ℝ :=
  if |T - 0.5| < 0.1 then 0 else -|T - 0.5| + 0.1

/-- The startup history after the off-to-on bookkeeping of execute: the new
timestep is appended when the action is 1 and the heater was off. -/
def updatedHistory (e : Env) (a : ℤ) : List ℕ :=
  if a = 1 ∧ e.last_heater_state = 0 then e.off_to_on ++ [e.timestep + 1]
  else e.off_to_on

/-- len(lstWindowEvents) of execute: startups within the inclusive window
ending at the incremented timestep. -/
def windowCount (e : Env) (a : ℤ) : ℕ :=
  (windowEvents (e.timestep + 1) e.window_toggle_ons (updatedHistory e a)).length

/-- V2 execute(actions): validity check, bookkeeping, then the hard-cutoff
branch (terminate with the penalty), the timestep-limit branch, and the
default non-terminal return. -/
def execute (e : Env) (a : ℤ) : Env × Option (ℝ × Bool × ℝ) :=
  if a = 0 ∨ a = 1 then
    let t' := e.timestep + 1
    let temp' := response e a
    let off' := updatedHistory e a
    let e' := { e with timestep := t', current_temp := temp',
                       off_to_on := off', last_heater_state := a }
    if windowCount e a > e.max_toggle_ons then
      (e', some (temp', true, e.exceed_toggle_on_reward))
    else if t' > e.max_timestep then
      (e', some (temp', true, reward_compute temp'))
    else
      (e', some (temp', false, reward_compute temp'))
  else (e, none)

/-- The external episode loop: fold execute over a list of actions, keeping
the mutated environment. -/
def runActions (e : Env) (acts : List ℤ) : Env :=
  acts.foldl (fun s a => (execute s a).1) e

end V2

namespace V3

/-- State of the V3 ThermostatEnvironment
(thermostatic-control-03-max-startups-explicit-state.ipynb). -/
structure Env where
  tau : ℝ
  current_temp : ℝ
  timestep : ℕ
  max_timestep : ℕ
  exceed_toggle_on_reward : ℝ
  last_heater_state : ℤ
  max_toggle_ons : ℕ
  toggle_ons_left : ℤ
  window_toggle_ons : ℕ
  off_to_on : List ℕ

/-- V3 __init__: tau 3.0, temp 0.0, horizon 100, penalty -10.0, budget 3,
window 10, empty history, full budget left. -/
def init : Env :=
  { tau := 3, current_temp := 0, timestep := 0, max_timestep := 100,
    exceed_toggle_on_reward := -10, last_heater_state := 0,
    max_toggle_ons := 3, toggle_ons_left := 3, window_toggle_ons := 10,
    off_to_on := [] }

/-- V3 reset: zeroes timestep and heater state, clears the history, restores
the full budget, draws a fresh temperature r, and returns the vector
[current_temp, toggle_ons_left]. -/
def reset (e : Env) (r : ℝ) : Env × (ℝ × ℝ) :=
  ({ e with timestep := 0, last_heater_state := 0, off_to_on := [],
            toggle_ons_left := (e.max_toggle_ons : ℤ), current_temp := r },
   (r, ((e.max_toggle_ons : ℤ) : ℝ)))

/-- V3 response(action). -/
def response (e : Env) (a : ℤ) : ℝ :=
  (a : ℝ) + (e.current_temp - (a : ℝ)) * Real.exp (-1 / e.tau)

/-- V3 reward_compute: 1.0 inside the dead band, -delta + 0.1 outside. -/
def reward_compute (T : ℝ) : ℝ :=
  if |T - 0.5| < 0.1 then 1 else -|T - 0.5| + 0.1

/-- The startup history after the off-to-on bookkeeping of execute. -/
def updatedHistory (e : Env) (a : ℤ) : List ℕ :=
  if a = 1 ∧ e.last_heater_state = 0 then e.off_to_on ++ [e.timestep + 1]
  else e.off_to_on

/-- len(lstWindowEvents) of execute. -/
def windowCount (e : Env) (a : ℤ) : ℕ :=
  (windowEvents (e.timestep + 1) e.window_toggle_ons (updatedHistory e a)).length

/-- self.toggle_ons_left as recomputed by execute: max_toggle_ons minus the
in-window startup count (an integer, possibly negative). -/
def toggleOnsLeft (e : Env) (a : ℤ) : ℤ :=
  (e.max_toggle_ons : ℤ) - (windowCount e a : ℤ)

/-- V3 execute(actions): validity check, bookkeeping, then the soft-budget
branch (continue with the penalty, checked first), the timestep-limit branch,
and the default return.  The observation is [current_temp, toggle_ons_left]. -/
def execute (e : Env) (a : ℤ) : Env × Option ((ℝ × ℝ) × Bool × ℝ) :=
  if a = 0 ∨ a = 1 then
    let t' := e.timestep + 1
    let temp' := response e a
    let off' := updatedHistory e a
    let left := toggleOnsLeft e a
    let e' := { e with timestep := t', current_temp := temp',
                       off_to_on := off', last_heater_state := a,
                       toggle_ons_left := left }
    if left < 0 then
      (e', some ((temp', (left : ℝ)), false, e.exceed_toggle_on_reward))
    else if t' > e.max_timestep then
      (e', some ((temp', (left : ℝ)), true, reward_compute temp'))
    else
      (e', some ((temp', (left : ℝ)), false, reward_compute temp'))
  else (e, none)

/-- The external episode loop: fold execute over a list of actions, keeping
the mutated environment. -/
def runActions (e : Env) (acts : List ℤ) : Env :=
  acts.foldl (fun s a => (execute s a).1) e

end V3

end

/-- C2 counterexample: in V1, reset with draw r = 1/2 returns observation 1/2
while the post-reset current_temp is 0.0, so the returned observation does not
equal the environment's post-reset temperature. -/
theorem v1_reset_obs_mismatch :
    (V1.reset V1.init (1/2)).2 ≠ ((V1.reset V1.init (1/2)).1).current_temp := by
  simp [V1.reset, V1.init]

/-- C2 (amended): in V2 and V3, reset zeroes timestep and last_heater_state,
empties the startup history, sets current_temp to the fresh draw r and returns
it as the observation (in V3 paired with the full budget max_toggle_ons); in
V1, reset zeroes timestep, sets current_temp to 0.0, and returns the draw r,
which is not the post-reset temperature. -/
theorem reset_reinitializes_state (e1 : V1.Env) (e2 : V2.Env) (e3 : V3.Env) (r : ℝ) :
    ((V1.reset e1 r).2 = r ∧ (V1.reset e1 r).1.current_temp = 0 ∧
      (V1.reset e1 r).1.timestep = 0) ∧
    ((V2.reset e2 r).2 = (V2.reset e2 r).1.current_temp ∧
      (V2.reset e2 r).1.current_temp = r ∧
      (V2.reset e2 r).1.timestep = 0 ∧
      (V2.reset e2 r).1.last_heater_state = 0 ∧
      (V2.reset e2 r).1.off_to_on = []) ∧
    ((V3.reset e3 r).2 =
        ((V3.reset e3 r).1.current_temp, ((V3.reset e3 r).1.toggle_ons_left : ℝ)) ∧
      (V3.reset e3 r).1.current_temp = r ∧
      (V3.reset e3 r).1.toggle_ons_left = (e3.max_toggle_ons : ℤ) ∧
      (V3.reset e3 r).1.timestep = 0 ∧
      (V3.reset e3 r).1.last_heater_state = 0 ∧
      (V3.reset e3 r).1.off_to_on = []) :=
  ⟨⟨rfl, rfl, rfl⟩, ⟨rfl, rfl, rfl, rfl, rfl⟩, ⟨rfl, rfl, rfl, rfl, rfl, rfl⟩⟩

/-- C6: window inclusivity.  An off-to-on event recorded at timestep t is
still selected by the sliding-window filter when the current timestep is
t + window_toggle_ons (difference equal to the width counts), but no longer
when it is t + window_toggle_ons + 1. -/
theorem window_inclusive_boundary (t w : ℕ) (hist : List ℕ) (h : t ∈ hist) :
    t ∈ windowEvents (t + w) w hist ∧ t ∉ windowEvents (t + w + 1) w hist := by
  constructor
  · simp only [windowEvents, List.mem_filter, decide_eq_true_eq]
    exact ⟨h, by omega⟩
  · simp only [windowEvents, List.mem_filter, decide_eq_true_eq, not_and]
    intro _
    omega

/-- Witness for C6 at t = 5, w = 20, history [5]. -/
theorem window_inclusive_boundary_witness :
    5 ∈ windowEvents 25 20 [5] ∧ 5 ∉ windowEvents 26 20 [5] := by
  simpa using window_inclusive_boundary 5 20 [5] (by simp)

/-- C7: dead-band exactness of reward_compute in all three variants.  When
|T - 0.5| < 0.1 the reward is the configured in-band value (0 in V1/V2, 1.0 in
V3); otherwise it is 0.1 - |T - 0.5|; at |T - 0.5| = 0.1 exactly the strict
inequality fails and the outside-band branch applies. -/
theorem reward_deadband_exact (T : ℝ) :
    (|T - 0.5| < 0.1 →
      V1.reward_compute T = 0 ∧ V2.reward_compute T = 0 ∧ V3.reward_compute T = 1) ∧
    (¬ |T - 0.5| < 0.1 →
      V1.reward_compute T = 0.1 - |T - 0.5| ∧
      V2.reward_compute T = 0.1 - |T - 0.5| ∧
      V3.reward_compute T = 0.1 - |T - 0.5|) ∧
    (|T - 0.5| = 0.1 →
      V1.reward_compute T = 0.1 - |T - 0.5| ∧
      V2.reward_compute T = 0.1 - |T - 0.5| ∧
      V3.reward_compute T = 0.1 - |T - 0.5|) := by
  refine ⟨fun h => ?_, fun h => ?_, fun h => ?_⟩
  · simp [V1.reward_compute, V2.reward_compute, V3.reward_compute, h]
  · simp only [V1.reward_compute, V2.reward_compute, V3.reward_compute, if_neg h]
    refine ⟨by ring, by ring, by ring⟩
  · have h' : ¬ |T - 0.5| < 0.1 := by
      rw [h]
      exact lt_irrefl 0.1
    simp only [V1.reward_compute, V2.reward_compute, V3.reward_compute, if_neg h']
    refine ⟨by ring, by ring, by ring⟩

/-- Witness for C7 at T = 0.5 (inside the band) and T = 0.6 (boundary). -/
theorem reward_deadband_exact_witness :
    V3.reward_compute 0.5 = 1 ∧ V2.reward_compute 0.6 = 0.1 - |(0.6:ℝ) - 0.5| := by
  have hb : |(0.6:ℝ) - 0.5| = 0.1 := by
    rw [show (0.6:ℝ) - 0.5 = 0.1 by norm_num]
    exact abs_of_nonneg (by norm_num)
  exact ⟨((reward_deadband_exact 0.5).1 (by norm_num)).2.2,
         ((reward_deadband_exact 0.6).2.2 hb).2.1⟩

/-- C9: an action outside {0,1} makes execute fail the validity check before
any mutation in every variant: the call returns no transition and the
environment state is exactly the pre-call state. -/
theorem invalid_action_atomic (a : ℤ) (h : ¬(a = 0 ∨ a = 1))
    (e1 : V1.Env) (e2 : V2.Env) (e3 : V3.Env) :
    V1.execute e1 a = (e1, none) ∧ V2.execute e2 a = (e2, none) ∧
      V3.execute e3 a = (e3, none) :=
  ⟨by simp [V1.execute, h], by simp [V2.execute, h], by simp [V3.execute, h]⟩

/-- Witness for C9 at action 2 on the freshly constructed environments. -/
theorem invalid_action_atomic_witness :
    ¬((2:ℤ) = 0 ∨ (2:ℤ) = 1) ∧
    (V1.execute V1.init 2 = (V1.init, none) ∧
      V2.execute V2.init 2 = (V2.init, none) ∧
      V3.execute V3.init 2 = (V3.init, none)) :=
  ⟨by decide, invalid_action_atomic 2 (by decide) V1.init V2.init V3.init⟩

/-- C4: in V2, whenever the in-window startup count after the bookkeeping of
an execute call strictly exceeds max_toggle_ons, the call returns terminal =
true and reward exactly exceed_toggle_on_reward, overriding the dead-band
reward. -/
theorem v2_hard_cutoff_terminates (e : V2.Env) (a : ℤ) (h : a = 0 ∨ a = 1)
    (hc : V2.windowCount e a > e.max_toggle_ons) :
    (V2.execute e a).2 = some (V2.response e a, true, e.exceed_toggle_on_reward) := by
  simp only [V2.execute]
  rw [if_pos h, if_pos hc]

/-- A V2 state with three startups in the window and the heater off. -/
def envC4 : V2.Env := { V2.init with off_to_on := [1, 2, 3], timestep := 3 }

/-- Witness for C4: turning the heater on a fourth time inside the window
yields the terminal penalty return. -/
theorem v2_hard_cutoff_terminates_witness :
    V2.windowCount envC4 1 > envC4.max_toggle_ons ∧
    (V2.execute envC4 1).2 =
      some (V2.response envC4 1, true, envC4.exceed_toggle_on_reward) :=
  ⟨by decide, v2_hard_cutoff_terminates envC4 1 (Or.inr rfl) (by decide)⟩

/-- C5: in V3, whenever the recomputed budget toggle_ons_left is negative
after an execute call's bookkeeping, the call returns terminal = false, reward
exactly exceed_toggle_on_reward, and an observation whose second component is
the (negative) remaining budget; the episode continues. -/
theorem v3_soft_budget_continues (e : V3.Env) (a : ℤ) (h : a = 0 ∨ a = 1)
    (hl : V3.toggleOnsLeft e a < 0) :
    (V3.execute e a).2 =
      some ((V3.response e a, (V3.toggleOnsLeft e a : ℝ)), false,
        e.exceed_toggle_on_reward) := by
  simp only [V3.execute]
  rw [if_pos h, if_pos hl]

/-- A V3 state with three startups in the window and the heater off. -/
def envC5 : V3.Env := { V3.init with off_to_on := [1, 2, 3], timestep := 3 }

/-- Witness for C5: a fourth in-window startup drives the budget negative and
returns the non-terminal penalty transition. -/
theorem v3_soft_budget_continues_witness :
    V3.toggleOnsLeft envC5 1 < 0 ∧
    (V3.execute envC5 1).2 =
      some ((V3.response envC5 1, (V3.toggleOnsLeft envC5 1 : ℝ)), false,
        envC5.exceed_toggle_on_reward) :=
  ⟨by decide, v3_soft_budget_continues envC5 1 (Or.inr rfl) (by decide)⟩

/-- C1 (amended): in V3, on a valid execute call whose incremented timestep
exceeds max_timestep, the returned terminal flag is true if and only if the
recomputed budget toggle_ons_left is nonnegative: the soft-budget branch is
checked first and returns terminal = false even past the timestep limit. -/
theorem v3_overflow_terminal_iff_budget (e : V3.Env) (a : ℤ) (h : a = 0 ∨ a = 1)
    (ht : e.timestep + 1 > e.max_timestep) :
    ((V3.execute e a).2.map (fun o => o.2.1) = some true) ↔
      0 ≤ V3.toggleOnsLeft e a := by
  simp only [V3.execute]
  rw [if_pos h]
  by_cases hl : V3.toggleOnsLeft e a < 0
  · rw [if_pos hl]
    simp
    omega
  · rw [if_neg hl, if_pos ht]
    simp
    omega

/-- A V3 state at the episode horizon with an empty startup history. -/
def envC1w : V3.Env := { V3.init with timestep := 100 }

/-- Witness for C1 (amended): at the horizon with a full budget, the call is
terminal. -/
theorem v3_overflow_terminal_iff_budget_witness :
    (V3.execute envC1w 0).2.map (fun o => o.2.1) = some true :=
  (v3_overflow_terminal_iff_budget envC1w 0 (Or.inl rfl) (by decide)).mpr (by decide)

/-- C3 (amended): in V2, termination by the timestep limit is absorbing: once
timestep has reached max_timestep, every valid execute call returns terminal =
true and leaves the state in the same overflow region, so all subsequent calls
do too.  (Window-cutoff termination is not latched by the environment; see the
counterexample.) -/
theorem v2_timestep_overflow_absorbing (e : V2.Env) (a : ℤ) (h : a = 0 ∨ a = 1)
    (ht : e.max_timestep ≤ e.timestep) :
    ((V2.execute e a).2.map (fun o => o.2.1) = some true) ∧
      (V2.execute e a).1.max_timestep ≤ (V2.execute e a).1.timestep := by
  simp only [V2.execute]
  rw [if_pos h]
  by_cases hc : V2.windowCount e a > e.max_toggle_ons
  · rw [if_pos hc]
    exact ⟨rfl, by simpa using Nat.le_succ_of_le ht⟩
  · rw [if_neg hc, if_pos (by omega : e.timestep + 1 > e.max_timestep)]
    exact ⟨rfl, by simpa using Nat.le_succ_of_le ht⟩

/-- A V2 state at the episode horizon. -/
def envC3w : V2.Env := { V2.init with timestep := 200 }

/-- Witness for C3 (amended) at the horizon state. -/
theorem v2_timestep_overflow_absorbing_witness :
    ((V2.execute envC3w 0).2.map (fun o => o.2.1) = some true) ∧
      (V2.execute envC3w 0).1.max_timestep ≤ (V2.execute envC3w 0).1.timestep :=
  v2_timestep_overflow_absorbing envC3w 0 (Or.inl rfl) (by decide)

/-- Closed form of the deviation from the target: after n applications of the
response function, T_n - a = (T0 - a) * exp(-1/tau)^n. -/
theorem tempSeq_sub (a T0 tau : ℝ) (n : ℕ) :
    tempSeq a T0 tau n - a = (T0 - a) * (Real.exp (-1 / tau)) ^ n := by
  induction n with
  | zero => simp [tempSeq]
  | succ n ih =>
    have hstep : tempSeq a T0 tau (n + 1) - a =
        (tempSeq a T0 tau n - a) * Real.exp (-1 / tau) := by
      simp only [tempSeq, respond]
      ring
    rw [hstep, ih, pow_succ]
    ring

/-- C8: holding an action a fixed, the n-fold response from T0 satisfies
|T_n - a| = |T0 - a| * exp(-n/tau); for T0 distinct from a the deviation is
strictly decreasing, and the temperature converges to a. -/
theorem response_convergence (a T0 tau : ℝ) (htau : 0 < tau) :
    (∀ n : ℕ, |tempSeq a T0 tau n - a| = |T0 - a| * Real.exp (-(n : ℝ) / tau)) ∧
    (T0 ≠ a → ∀ n : ℕ,
      |tempSeq a T0 tau (n + 1) - a| < |tempSeq a T0 tau n - a|) ∧
    Filter.Tendsto (tempSeq a T0 tau) Filter.atTop (nhds a) := by
  have hk0 : 0 < Real.exp (-1 / tau) := Real.exp_pos _
  have hk1 : Real.exp (-1 / tau) < 1 := by
    rw [Real.exp_lt_one_iff, neg_div, neg_lt_zero]
    positivity
  have hid : ∀ n : ℕ,
      |tempSeq a T0 tau n - a| = |T0 - a| * Real.exp (-(n : ℝ) / tau) := by
    intro n
    rw [tempSeq_sub, abs_mul, abs_pow, abs_of_pos hk0, ← Real.exp_nat_mul,
      show (n : ℝ) * (-1 / tau) = -(n : ℝ) / tau by ring]
  refine ⟨hid, fun hne n => ?_, ?_⟩
  · have habs : 0 < |T0 - a| := abs_pos.mpr (sub_ne_zero.mpr hne)
    rw [hid n, hid (n + 1)]
    have hexp : Real.exp (-((n : ℝ) + 1) / tau) < Real.exp (-(n : ℝ) / tau) := by
      rw [Real.exp_lt_exp, div_lt_div_iff_of_pos_right htau]
      linarith
    push_cast
    exact mul_lt_mul_of_pos_left hexp habs
  · have hfun : tempSeq a T0 tau =
        fun n => a + (T0 - a) * (Real.exp (-1 / tau)) ^ n := by
      funext n
      have := tempSeq_sub a T0 tau n
      linarith
    rw [hfun]
    have hpow : Filter.Tendsto (fun n : ℕ => (Real.exp (-1 / tau)) ^ n)
        Filter.atTop (nhds 0) :=
      tendsto_pow_atTop_nhds_zero_of_lt_one hk0.le hk1
    have hlim := Filter.Tendsto.const_add a (hpow.const_mul (T0 - a))
    simpa using hlim

/-- Witness for C8 at a = 1, T0 = 0, tau = 3, n = 2. -/
theorem response_convergence_witness :
    |tempSeq 1 0 3 2 - 1| = |(0 : ℝ) - 1| * Real.exp (-(2 : ℝ) / 3) := by
  simpa using (response_convergence 1 0 3 (by norm_num)).1 2

/-- The response function maps the unit interval into itself: the next
temperature is the convex combination (1 - k) * a + k * T with
k = exp(-1/tau) in (0,1). -/
theorem respond_mem_unit (aR T tau : ℝ) (haR : aR = 0 ∨ aR = 1) (htau : 0 < tau)
    (hT0 : 0 ≤ T) (hT1 : T ≤ 1) : 0 ≤ respond aR T tau ∧ respond aR T tau ≤ 1 := by
  have hk0 : 0 < Real.exp (-1 / tau) := Real.exp_pos _
  have hk1 : Real.exp (-1 / tau) < 1 := by
    rw [Real.exp_lt_one_iff, neg_div, neg_lt_zero]
    positivity
  rcases haR with h | h <;> subst h <;> unfold respond <;> constructor <;>
    nlinarith [mul_nonneg hT0 hk0.le, mul_nonneg (sub_nonneg.mpr hT1) (sub_nonneg.mpr hk1.le)]

/-- C10: the unit interval is invariant under the thermal response: for a
temperature in [0,1], an action in {0,1} and a positive time constant, the
next temperature respond(a, T, tau) is again in [0,1]; consequently a valid
V2 execute call keeps current_temp in [0,1]. -/
theorem respond_unit_interval_invariant (aR T tau : ℝ) (e : V2.Env) (a : ℤ)
    (haR : aR = 0 ∨ aR = 1) (htau : 0 < tau) (hT0 : 0 ≤ T) (hT1 : T ≤ 1)
    (ha : a = 0 ∨ a = 1) (hetau : 0 < e.tau) (he0 : 0 ≤ e.current_temp)
    (he1 : e.current_temp ≤ 1) :
    (0 ≤ respond aR T tau ∧ respond aR T tau ≤ 1) ∧
    (0 ≤ ((V2.execute e a).1).current_temp ∧
      ((V2.execute e a).1).current_temp ≤ 1) := by
  refine ⟨respond_mem_unit aR T tau haR htau hT0 hT1, ?_⟩
  have hstate : ((V2.execute e a).1).current_temp = V2.response e a := by
    simp only [V2.execute]
    rw [if_pos ha]
    split_ifs <;> rfl
  have hresp : V2.response e a = respond (a : ℝ) e.current_temp e.tau := rfl
  have haR' : (a : ℝ) = 0 ∨ (a : ℝ) = 1 := by
    rcases ha with h | h <;> subst h <;> simp
  rw [hstate, hresp]
  exact respond_mem_unit _ _ _ haR' hetau he0 he1

/-- Witness for C10 at T = 1/2, action 0, tau = 3, and a V2 execute call with
action 1 from the freshly constructed environment. -/
theorem respond_unit_interval_invariant_witness :
    (0 ≤ respond 0 (1/2) 3 ∧ respond 0 (1/2) 3 ≤ 1) ∧
    (0 ≤ ((V2.execute V2.init 1).1).current_temp ∧
      ((V2.execute V2.init 1).1).current_temp ≤ 1) :=
  respond_unit_interval_invariant 0 (1/2) 3 V2.init 1 (Or.inl rfl) (by norm_num)
    (by norm_num) (by norm_num) (Or.inr rfl) (by norm_num [V2.init])
    (by norm_num [V2.init]) (by norm_num [V2.init])

noncomputable section

/-- The discrete (real-free) part of a V2 environment state: everything the
startup tracker and the terminal logic of execute depend on. -/
structure DV2 where
  timestep : ℕ
  max_timestep : ℕ
  last_heater_state : ℤ
  max_toggle_ons : ℕ
  window_toggle_ons : ℕ
  off_to_on : List ℕ
  deriving DecidableEq

/-- Projection of a V2 state onto its discrete part. -/
def V2.discrete (e : V2.Env) : DV2 :=
  { timestep := e.timestep, max_timestep := e.max_timestep,
    last_heater_state := e.last_heater_state,
    max_toggle_ons := e.max_toggle_ons,
    window_toggle_ons := e.window_toggle_ons, off_to_on := e.off_to_on }

/-- The in-window startup count of a V2 execute call, on the discrete part. -/
def V2.dWindowCount (d : DV2) (a : ℤ) : ℕ :=
  (windowEvents (d.timestep + 1) d.window_toggle_ons
    (if a = 1 ∧ d.last_heater_state = 0 then d.off_to_on ++ [d.timestep + 1]
     else d.off_to_on)).length

/-- The discrete-state transition of a V2 execute call. -/
def V2.dstep (d : DV2) (a : ℤ) : DV2 :=
  if a = 0 ∨ a = 1 then
    { d with timestep := d.timestep + 1,
             off_to_on := if a = 1 ∧ d.last_heater_state = 0 then
                 d.off_to_on ++ [d.timestep + 1]
               else d.off_to_on,
             last_heater_state := a }
  else d

/-- The terminal flag returned by a valid V2 execute call, on the discrete
part: hard cutoff or timestep overflow. -/
def V2.dTerminal (d : DV2) (a : ℤ) : Bool :=
  decide (V2.dWindowCount d a > d.max_toggle_ons) ||
    decide (d.timestep + 1 > d.max_timestep)

/-- dstep tracks the state mutation of V2 execute. -/
theorem v2_discrete_execute (e : V2.Env) (a : ℤ) :
    V2.discrete ((V2.execute e a).1) = V2.dstep (V2.discrete e) a := by
  by_cases h : a = 0 ∨ a = 1
  · simp only [V2.execute, V2.dstep, V2.updatedHistory, V2.discrete, if_pos h]
    split_ifs <;> rfl
  · simp only [V2.execute, V2.dstep, if_neg h]

/-- dstep folded over an action list tracks the V2 episode loop. -/
theorem v2_discrete_run (e : V2.Env) (acts : List ℤ) :
    V2.discrete (V2.runActions e acts) = acts.foldl V2.dstep (V2.discrete e) := by
  induction acts generalizing e with
  | nil => rfl
  | cons a l ih =>
    show V2.discrete (V2.runActions ((V2.execute e a).1) l) =
      List.foldl V2.dstep (V2.dstep (V2.discrete e) a) l
    rw [← v2_discrete_execute]
    exact ih _

/-- The terminal flag of a valid V2 execute call is dTerminal of the discrete
pre-state. -/
theorem v2_execute_terminal (e : V2.Env) (a : ℤ) (h : a = 0 ∨ a = 1) :
    (V2.execute e a).2.map (fun o => o.2.1) =
      some (V2.dTerminal (V2.discrete e) a) := by
  have hw : V2.dWindowCount (V2.discrete e) a = V2.windowCount e a := rfl
  have hm : (V2.discrete e).max_toggle_ons = e.max_toggle_ons := rfl
  have ht : (V2.discrete e).timestep = e.timestep := rfl
  have hx : (V2.discrete e).max_timestep = e.max_timestep := rfl
  simp only [V2.execute, V2.dTerminal, hw, hm, ht, hx, if_pos h]
  split_ifs with h1 h2 <;> simp_all

/-- The discrete part of a V3 environment state. -/
structure DV3 where
  timestep : ℕ
  max_timestep : ℕ
  last_heater_state : ℤ
  max_toggle_ons : ℕ
  toggle_ons_left : ℤ
  window_toggle_ons : ℕ
  off_to_on : List ℕ
  deriving DecidableEq

/-- Projection of a V3 state onto its discrete part. -/
def V3.discrete (e : V3.Env) : DV3 :=
  { timestep := e.timestep, max_timestep := e.max_timestep,
    last_heater_state := e.last_heater_state,
    max_toggle_ons := e.max_toggle_ons,
    toggle_ons_left := e.toggle_ons_left,
    window_toggle_ons := e.window_toggle_ons, off_to_on := e.off_to_on }

/-- The in-window startup count of a V3 execute call, on the discrete part. -/
def V3.dWindowCount (d : DV3) (a : ℤ) : ℕ :=
  (windowEvents (d.timestep + 1) d.window_toggle_ons
    (if a = 1 ∧ d.last_heater_state = 0 then d.off_to_on ++ [d.timestep + 1]
     else d.off_to_on)).length

/-- The discrete-state transition of a V3 execute call. -/
def V3.dstep (d : DV3) (a : ℤ) : DV3 :=
  if a = 0 ∨ a = 1 then
    { d with timestep := d.timestep + 1,
             off_to_on := if a = 1 ∧ d.last_heater_state = 0 then
                 d.off_to_on ++ [d.timestep + 1]
               else d.off_to_on,
             last_heater_state := a,
             toggle_ons_left := (d.max_toggle_ons : ℤ) - V3.dWindowCount d a }
  else d

/-- The terminal flag returned by a valid V3 execute call, on the discrete
part: false on a negative budget, else the timestep-overflow test. -/
def V3.dTerminal (d : DV3) (a : ℤ) : Bool :=
  if (d.max_toggle_ons : ℤ) - V3.dWindowCount d a < 0 then false
  else decide (d.timestep + 1 > d.max_timestep)

/-- dstep tracks the state mutation of V3 execute. -/
theorem v3_discrete_execute (e : V3.Env) (a : ℤ) :
    V3.discrete ((V3.execute e a).1) = V3.dstep (V3.discrete e) a := by
  by_cases h : a = 0 ∨ a = 1
  · simp only [V3.execute, V3.dstep, V3.updatedHistory, V3.discrete, V3.toggleOnsLeft,
      V3.windowCount, V3.dWindowCount, if_pos h]
    split_ifs <;> rfl
  · simp only [V3.execute, V3.dstep, if_neg h]

/-- dstep folded over an action list tracks the V3 episode loop. -/
theorem v3_discrete_run (e : V3.Env) (acts : List ℤ) :
    V3.discrete (V3.runActions e acts) = acts.foldl V3.dstep (V3.discrete e) := by
  induction acts generalizing e with
  | nil => rfl
  | cons a l ih =>
    show V3.discrete (V3.runActions ((V3.execute e a).1) l) =
      List.foldl V3.dstep (V3.dstep (V3.discrete e) a) l
    rw [← v3_discrete_execute]
    exact ih _

/-- The terminal flag of a valid V3 execute call is dTerminal of the discrete
pre-state. -/
theorem v3_execute_terminal (e : V3.Env) (a : ℤ) (h : a = 0 ∨ a = 1) :
    (V3.execute e a).2.map (fun o => o.2.1) =
      some (V3.dTerminal (V3.discrete e) a) := by
  have hw : ((V3.discrete e).max_toggle_ons : ℤ) - V3.dWindowCount (V3.discrete e) a =
      V3.toggleOnsLeft e a := rfl
  have ht : (V3.discrete e).timestep = e.timestep := rfl
  have hx : (V3.discrete e).max_timestep = e.max_timestep := rfl
  simp only [V3.execute, V3.dTerminal, hw, ht, hx, if_pos h]
  split_ifs with h1 h2 <;> simp_all

end

noncomputable section

/-- The V3 action sequence driving the C1 counterexample: 92 idle steps, then
alternating on/off so that startups land at timesteps 93, 95, 97 and 99. -/
def actsC1 : List ℤ := List.replicate 92 0 ++ [1, 0, 1, 0, 1, 0, 1, 0]

/-- The V3 state reached from reset by actsC1: timestep 100, four startups
still inside the window of width 10. -/
def envC1 : V3.Env := V3.runActions (V3.reset V3.init (1/2)).1 actsC1

/-- The V2 state after the six actions 1,0,1,0,1,0 from reset: startups at
timesteps 1, 3 and 5. -/
def envC3a : V2.Env := V2.runActions (V2.reset V2.init (1/2)).1 [1, 0, 1, 0, 1, 0]

/-- The V2 state 15 calls later: the terminal-returning call at timestep 7
followed by 14 idle steps. -/
def envC3b : V2.Env := V2.runActions (V2.execute envC3a 1).1 (List.replicate 14 0)

end


/-- The timestep field commutes with the discrete projection. -/
theorem v3_discrete_timestep (e : V3.Env) : (V3.discrete e).timestep = e.timestep := rfl

/-- The max_timestep field commutes with the discrete projection. -/
theorem v3_discrete_max_timestep (e : V3.Env) :
    (V3.discrete e).max_timestep = e.max_timestep := rfl

set_option maxRecDepth 8000 in
/-- C1 counterexample: at the V3 state reached by actsC1 the next valid call
(action 1, a fifth in-window startup) has incremented timestep 101 exceeding
max_timestep = 100, yet returns terminal = false: the negative-budget branch
fires first. -/
theorem v3_overflow_budget_counterexample :
    envC1.timestep + 1 > envC1.max_timestep ∧
    (V3.execute envC1 1).2.map (fun o => o.2.1) = some false := by
  have hd : V3.discrete envC1 =
      actsC1.foldl V3.dstep (V3.discrete (V3.reset V3.init (1/2)).1) :=
    v3_discrete_run _ _
  have hstart : V3.discrete (V3.reset V3.init (1/2)).1 =
      { timestep := 0, max_timestep := 100, last_heater_state := 0,
        max_toggle_ons := 3, toggle_ons_left := 3, window_toggle_ons := 10,
        off_to_on := [] } := rfl
  constructor
  · rw [← v3_discrete_timestep envC1, ← v3_discrete_max_timestep envC1, hd, hstart]
    decide
  · rw [v3_execute_terminal envC1 1 (Or.inr rfl), hd, hstart]
    decide

set_option maxRecDepth 8000 in
/-- C3 counterexample: in one uninterrupted V2 action sequence, the call at
timestep 7 (a fourth in-window startup) returns terminal = true, yet the call
at timestep 22 returns terminal = false again: the startups have aged out of
the window and the environment keeps no terminal latch. -/
theorem v2_terminal_not_absorbing :
    (V2.execute envC3a 1).2.map (fun o => o.2.1) = some true ∧
    (V2.execute envC3b 0).2.map (fun o => o.2.1) = some false := by
  have hstart : V2.discrete (V2.reset V2.init (1/2)).1 =
      { timestep := 0, max_timestep := 200, last_heater_state := 0,
        max_toggle_ons := 3, window_toggle_ons := 20, off_to_on := [] } := rfl
  have hda : V2.discrete envC3a =
      ([1, 0, 1, 0, 1, 0] : List ℤ).foldl V2.dstep
        (V2.discrete (V2.reset V2.init (1/2)).1) :=
    v2_discrete_run _ _
  have hdb : V2.discrete envC3b =
      (List.replicate 14 (0:ℤ)).foldl V2.dstep (V2.dstep (V2.discrete envC3a) 1) := by
    have h1 : V2.discrete envC3b =
        (List.replicate 14 (0:ℤ)).foldl V2.dstep
          (V2.discrete ((V2.execute envC3a 1).1)) :=
      v2_discrete_run _ _
    rw [h1, v2_discrete_execute]
  constructor
  · rw [v2_execute_terminal envC3a 1 (Or.inr rfl), hda, hstart]
    decide
  · rw [v2_execute_terminal envC3b 0 (Or.inl rfl), hdb, hda, hstart]
    decide
